import Mathlib

/-!
Shallow embedding of the flash-memory-cards application (a client-side
flashcard study app) and proofs about its specification claims.

The embedding follows the TypeScript sources:
* `src/pages/Index.tsx` — card repository (create, update, id generation,
  date rehydration on load)
* `src/components/StudyMode.tsx` — study session state machine (filtering,
  navigation, flip, shuffle, mastery toggling, auto-advance timer)
* `src/components/CreateFlashcard.tsx` — creation form validation
* `src/components/Analytics.tsx` — read-only aggregation (most studied)
* `src/hooks/useLocalStorage.ts` — persistence through JSON-serialized
  localStorage entries

JavaScript `Date` values are modelled by their epoch-millisecond value as a
`Nat`.  The storage medium is modelled at the JSON-value level (the medium
transmits the serialized tree unchanged, i.e. it "does not fail").
-/

namespace FlashMaster

/-- The `Flashcard` interface shared by all components
(`src/pages/Index.tsx` lines 10–18).  `lastReviewed?: Date` is modelled as
an optional epoch-millisecond value. -/
structure Flashcard where
  id : String
  question : String
  answer : String
  tags : List String
  mastered : Bool
  reviewCount : Nat
  lastReviewed : Option Nat
deriving DecidableEq, Repr

/-! ### Study session state (`StudyMode.tsx`) -/

/-- One entry of `studySession.sessionProgress`
(`StudyMode.tsx` lines 138–144). -/
structure SessionProgressEntry where
  reviewedAt : Nat
  mastered : Bool
deriving DecidableEq, Repr

/-- The `study-session` record (`StudyMode.tsx` lines 43–47).
`sessionProgress` is a JS object keyed by card id, modelled as an ordered
association list (JS objects preserve string-key insertion order). -/
structure StudySession where
  startTime : Nat
  cardsReviewed : Nat
  sessionProgress : List (String × SessionProgressEntry)
deriving DecidableEq, Repr

/-- The runtime value held in the `reviewedCards` state
(`StudyMode.tsx` line 41).  A live `Set<string>` is `rset` (insertion
order kept); `robj` is the plain object produced by `JSON.parse` of the
persisted form — `JSON.stringify` of a `Set` yields `"{}"` (a set has no
enumerable own properties), so the object read back is always empty. -/
inductive ReviewedStore where
  | rset (ids : List String)
  | robj
deriving DecidableEq, Repr

/-- The component state of `StudyMode` (`StudyMode.tsx` lines 38–47):
`isFlipped` is plain `useState(false)`; the other fields live in
`useLocalStorage` slots. -/
structure StudyState where
  isFlipped : Bool
  currentIndex : Nat
  selectedTag : String
  reviewedCards : ReviewedStore
  showMastered : Bool
  studySession : StudySession
deriving DecidableEq, Repr

/-- `filteredCards` (`StudyMode.tsx` lines 51–63): filter by the selected
tag unless it is `"all"`, then drop mastered cards unless `showMastered`. -/
def filteredCards (flashcards : List Flashcard) (selectedTag : String)
    (showMastered : Bool) : List Flashcard :=
  let cards := flashcards
  let cards := if selectedTag ≠ "all" then
      cards.filter (fun card => card.tags.contains selectedTag)
    else cards
  let cards := if !showMastered then
      cards.filter (fun card => !card.mastered)
    else cards
  cards

/-- Modelled from the spec's words (for comparison with `filteredCards`):
"filteredView = repository.all().filter(tagMatches).filter(masteryMatches),
where tagMatches(card) = selectedTag == "all" or selectedTag in card.tags,
and masteryMatches(card) = showMastered or not card.mastered". -/
def filteredViewSpec (flashcards : List Flashcard) (selectedTag : String)
    (showMastered : Bool) : List Flashcard :=
  flashcards.filter (fun card =>
    (selectedTag == "all" || card.tags.contains selectedTag) &&
    (showMastered || !card.mastered))

/-- `handleFlip` (`StudyMode.tsx` lines 101–103). -/
def handleFlip (s : StudyState) : StudyState :=
  { s with isFlipped := !s.isFlipped }

/-- `handleNext` (`StudyMode.tsx` lines 105–110): advance and un-flip only
when the cursor is strictly before the last index of the filtered view;
otherwise the whole body is skipped (no state change at all). -/
def handleNext (flashcards : List Flashcard) (s : StudyState) : StudyState :=
  let fc := filteredCards flashcards s.selectedTag s.showMastered
  if s.currentIndex < fc.length - 1 then
    { s with currentIndex := s.currentIndex + 1, isFlipped := false }
  else s

/-- `handlePrevious` (`StudyMode.tsx` lines 112–117). -/
def handlePrevious (s : StudyState) : StudyState :=
  if s.currentIndex > 0 then
    { s with currentIndex := s.currentIndex - 1, isFlipped := false }
  else s

/-- `handleShuffle` (`StudyMode.tsx` lines 164–173); `randIndex` stands for
`Math.floor(Math.random() * filteredCards.length)`. -/
def handleShuffle (s : StudyState) (randIndex : Nat) : StudyState :=
  { s with currentIndex := randIndex, isFlipped := false }

/-- `handleFlashcardUpdate` (`Index.tsx` lines 59–65): replace every stored
card whose id matches the updated card. -/
def handleFlashcardUpdate (flashcards : List Flashcard)
    (updatedCard : Flashcard) : List Flashcard :=
  flashcards.map (fun card =>
    if card.id == updatedCard.id then updatedCard else card)

/-- The JavaScript exception that can escape an operation. -/
inductive JsError where
  /-- `TypeError: object is not iterable`, thrown by `new Set(x)` when `x`
  is a plain object. -/
  | typeErrorNotIterable
deriving DecidableEq, Repr

/-- Semantics of `new Set(reviewedCards)` (`StudyMode.tsx` line 130): a
live set is copied; the plain object deserialized from storage is not
iterable, so the constructor throws. -/
def newSetFrom : ReviewedStore → Except JsError (List String)
  | .rset ids => .ok ids
  | .robj => .error .typeErrorNotIterable

/-- `Set.prototype.add`: append the element unless already present. -/
def setAdd (ids : List String) (id : String) : List String :=
  if ids.contains id then ids else ids ++ [id]

/-- JS object spread `{...prev.sessionProgress, [id]: v}`: an existing key
is overwritten in place, a new key is appended. -/
def upsertProgress (m : List (String × SessionProgressEntry)) (k : String)
    (v : SessionProgressEntry) : List (String × SessionProgressEntry) :=
  if m.any (fun p => p.1 == k) then
    m.map (fun p => if p.1 == k then (k, v) else p)
  else m ++ [(k, v)]

/-- The pending `setTimeout` scheduled by `handleMastered`
(`StudyMode.tsx` lines 156–160).  The callback closes over the
`currentIndex` and `filteredCards` values of the render in which it was
scheduled, so the timer carries that snapshot. -/
structure AutoAdvance where
  delayMs : Nat
  snapIndex : Nat
  snapCards : List Flashcard
deriving DecidableEq, Repr

/-- Firing the scheduled callback against the then-current (`live`) state.
The outer test is the timeout body's own check; the inner one is the
identical guard inside the stale `handleNext` closure, which then writes
`snapIndex + 1` (the snapshot index, not the live one) into the live
state. -/
def fireAutoAdvance (t : AutoAdvance) (live : StudyState) : StudyState :=
  if t.snapIndex < t.snapCards.length - 1 then
    if t.snapIndex < t.snapCards.length - 1 then
      { live with currentIndex := t.snapIndex + 1, isFlipped := false }
    else live
  else live

/-- Modelled from the spec's words (for comparison with `fireAutoAdvance`):
the claim says the delayed advance "is computed against the cursor and
filtered view live at the time the delayed call fires", i.e. it behaves
as a fresh `handleNext` on the live state. -/
def fireAutoAdvanceSpecLive (flashcards : List Flashcard)
    (live : StudyState) : StudyState :=
  let fc := filteredCards flashcards live.selectedTag live.showMastered
  if live.currentIndex < fc.length - 1 then
    { live with currentIndex := live.currentIndex + 1, isFlipped := false }
  else live

/-- `handleMastered` (`StudyMode.tsx` lines 119–162) together with the
repository update it triggers.  The repository update
(`onFlashcardUpdate`) happens before `new Set(reviewedCards)` is
evaluated, so the updated repository is returned even when that
constructor throws; the remaining effects (reviewed set, session record,
timer scheduling) are aborted by the exception.  The timer is scheduled
(delay 1000 ms) only on a false→true mastery transition. -/
def handleMastered (flashcards : List Flashcard) (s : StudyState)
    (now : Nat) :
    List Flashcard × Except JsError (StudyState × Option AutoAdvance) :=
  let fc := filteredCards flashcards s.selectedTag s.showMastered
  match fc[s.currentIndex]? with
  | none => (flashcards, .ok (s, none))
  | some currentCard =>
    let updatedCard := { currentCard with
      mastered := !currentCard.mastered,
      reviewCount := currentCard.reviewCount + 1,
      lastReviewed := some now }
    let flashcards1 := handleFlashcardUpdate flashcards updatedCard
    match newSetFrom s.reviewedCards with
    | .error e => (flashcards1, .error e)
    | .ok ids =>
      let s1 := { s with
        reviewedCards := .rset (setAdd ids currentCard.id),
        studySession := { s.studySession with
          cardsReviewed := s.studySession.cardsReviewed + 1,
          sessionProgress := upsertProgress s.studySession.sessionProgress
            currentCard.id
            { reviewedAt := now, mastered := !currentCard.mastered } } }
      let timer := if !currentCard.mastered then
          some { delayMs := 1000, snapIndex := s.currentIndex,
                 snapCards := fc }
        else none
      (flashcards1, .ok (s1, timer))

/-! ### Card creation (`CreateFlashcard.tsx`, `Index.tsx`) -/

/-- The card data assembled by `handleSubmit`
(`CreateFlashcard.tsx` lines 56–62); no `lastReviewed` field is present
(it stays `undefined`). -/
structure NewCardData where
  question : String
  answer : String
  tags : List String
  mastered : Bool
  reviewCount : Nat
deriving DecidableEq, Repr

/-- `String.prototype.trim`: strip leading and trailing whitespace. -/
def jsTrim (s : String) : String :=
  ⟨((s.data.dropWhile Char.isWhitespace).reverse.dropWhile
      Char.isWhitespace).reverse⟩

/-- `handleSubmit` (`CreateFlashcard.tsx` lines 44–76): abort (returning
no card) when the trimmed question or answer is empty, otherwise hand the
trimmed data to `onFlashcardCreate`. -/
def handleSubmit (question answer : String) (tags : List String) :
    Option NewCardData :=
  if jsTrim question = "" || jsTrim answer = "" then none
  else some { question := jsTrim question, answer := jsTrim answer,
              tags := tags, mastered := false, reviewCount := 0 }

/-- Digit characters for `Number.prototype.toString(36)`. -/
def base36Char (d : Nat) : Char :=
  if d < 10 then Char.ofNat (48 + d) else Char.ofNat (87 + d)

/-- `n.toString(36)` for a non-negative integer. -/
def natToBase36 (n : Nat) : String :=
  if n = 0 then "0" else ⟨((Nat.digits 36 n).map base36Char).reverse⟩

/-- `generateId` (`Index.tsx` lines 28–30):
`Date.now().toString(36) + Math.random().toString(36).substr(2)`.
`nowMs` is the clock reading and `randomPart` the random suffix. -/
def generateId (nowMs : Nat) (randomPart : String) : String :=
  natToBase36 nowMs ++ randomPart

/-- `handleFlashcardCreate` (`Index.tsx` lines 38–56): attach a fresh id
and append the card (`setFlashcards(prev => [...prev, flashcard])`). -/
def handleFlashcardCreate (flashcards : List Flashcard)
    (newCard : NewCardData) (freshId : String) : List Flashcard :=
  flashcards ++ [{ id := freshId, question := newCard.question,
                   answer := newCard.answer, tags := newCard.tags,
                   mastered := newCard.mastered,
                   reviewCount := newCard.reviewCount,
                   lastReviewed := none }]

/-- The complete creation flow: form validation in `CreateFlashcard`
followed by `handleFlashcardCreate` in `Index`. -/
def createFlow (flashcards : List Flashcard) (question answer : String)
    (tags : List String) (nowMs : Nat) (randomPart : String) :
    List Flashcard :=
  match handleSubmit question answer tags with
  | none => flashcards
  | some nc => handleFlashcardCreate flashcards nc (generateId nowMs randomPart)

/-! ### Analytics (`Analytics.tsx`) -/

/-- The comparator-induced order of
`[...flashcards].sort((a, b) => b.reviewCount - a.reviewCount)`: the
ECMAScript sort is stable, so it is the stable descending sort by
`reviewCount`, which insertion sort with this relation computes. -/
def sortByReviewsDesc (flashcards : List Flashcard) : List Flashcard :=
  List.insertionSort (fun a b => b.reviewCount ≤ a.reviewCount) flashcards

/-- `mostStudied` (`Analytics.tsx` lines 50–53): sorted copy, then
`.slice(0, 5)`. -/
def mostStudied (flashcards : List Flashcard) : List Flashcard :=
  (sortByReviewsDesc flashcards).take 5

/-! ### The JSON layer (`useLocalStorage.ts`)

Values cross the storage medium as `JSON.stringify` output and come back
through `JSON.parse`.  The medium transmits text verbatim, so it is
modelled at the level of the JSON value tree. -/

/-- A JSON value.  Numbers occurring in this application are non-negative
integers. -/
inductive Json where
  | jnull
  | jbool (b : Bool)
  | jnum (n : Nat)
  | jstr (s : String)
  | jarr (items : List Json)
  | jobj (fields : List (String × Json))

/-- Decimal digit character. -/
def digitChar (d : Nat) : Char := Char.ofNat (48 + d)

/-- Numeric value of a decimal digit character. -/
def charDigit (c : Char) : Nat := c.toNat - 48

/-- Model of the string a `Date` becomes under `JSON.stringify` (its
`toISOString()` rendering).  The ISO-8601 text determines the epoch
millisecond exactly; it is modelled here by the decimal epoch-millisecond
numeral, which has the same structure (a never-empty string from which
`new Date` recovers the exact epoch value). -/
def dateToJsonString (t : Nat) : String :=
  if t = 0 then "0" else ⟨((Nat.digits 10 t).map digitChar).reverse⟩

/-- `new Date(s).getTime()` on the strings produced by
`dateToJsonString`. -/
def parseDateString (s : String) : Nat :=
  Nat.ofDigits 10 ((s.data.map charDigit).reverse)

/-- Property access on a parsed JSON object. -/
def jLookup (fields : List (String × Json)) (key : String) : Option Json :=
  match fields with
  | [] => none
  | (k, v) :: rest => if k = key then some v else jLookup rest key

/-- `JSON.stringify` of one flashcard: all fields in declaration order;
the `lastReviewed` property is present only when the `Date` is set
(`undefined` properties are omitted by `JSON.stringify`). -/
def serializeCard (c : Flashcard) : Json :=
  .jobj ([("id", .jstr c.id), ("question", .jstr c.question),
          ("answer", .jstr c.answer),
          ("tags", .jarr (c.tags.map .jstr)),
          ("mastered", .jbool c.mastered),
          ("reviewCount", .jnum c.reviewCount)] ++
    (match c.lastReviewed with
     | some t => [("lastReviewed", .jstr (dateToJsonString t))]
     | none => []))

/-- `JSON.stringify` of the `flashmaster-cards` value. -/
def serializeCards (cards : List Flashcard) : Json :=
  .jarr (cards.map serializeCard)

/-- A card as it exists right after `JSON.parse`: identical to
`Flashcard` except that `lastReviewed` is still the serialized string
("they come back as strings", `Index.tsx` line 72). -/
structure StoredCard where
  id : String
  question : String
  answer : String
  tags : List String
  mastered : Bool
  reviewCount : Nat
  lastReviewed : Option String
deriving DecidableEq, Repr

/-- Read a parsed JSON array as a string list (the `tags` field). -/
def parseStringList : List Json → Option (List String)
  | [] => some []
  | .jstr s :: rest =>
    match parseStringList rest with
    | some tail => some (s :: tail)
    | none => none
  | _ => none

/-- Consume one parsed JSON value as a card, reading the properties the
TypeScript code accesses.  A missing or differently-typed `lastReviewed`
property reads as unset. -/
def parseCard : Json → Option StoredCard
  | .jobj fields =>
    match jLookup fields "id", jLookup fields "question",
          jLookup fields "answer", jLookup fields "tags",
          jLookup fields "mastered", jLookup fields "reviewCount" with
    | some (.jstr i), some (.jstr q), some (.jstr a), some (.jarr ts),
      some (.jbool m), some (.jnum r) =>
      match parseStringList ts with
      | some tags =>
        some { id := i, question := q, answer := a, tags := tags,
               mastered := m, reviewCount := r,
               lastReviewed :=
                 match jLookup fields "lastReviewed" with
                 | some (.jstr d) => some d
                 | _ => none }
      | none => none
    | _, _, _, _, _, _ => none
  | _ => none

/-- Consume a parsed JSON array element-wise as cards. -/
def parseCardList : List Json → Option (List StoredCard)
  | [] => some []
  | j :: js =>
    match parseCard j, parseCardList js with
    | some c, some cs => some (c :: cs)
    | _, _ => none

/-- `JSON.parse` of the `flashmaster-cards` value, consumed as a card
array. -/
def parseCards : Json → Option (List StoredCard)
  | .jarr items => parseCardList items
  | _ => none

/-- The date-rehydration mount effect (`Index.tsx` lines 72–80):
`lastReviewed: card.lastReviewed ? new Date(card.lastReviewed) : undefined`.
JS truthiness makes an empty string read as unset. -/
def rehydrateCard (c : StoredCard) : Flashcard :=
  { id := c.id, question := c.question, answer := c.answer,
    tags := c.tags, mastered := c.mastered, reviewCount := c.reviewCount,
    lastReviewed :=
      match c.lastReviewed with
      | some s => if s = "" then none else some (parseDateString s)
      | none => none }

/-! ### Study-session persistence and reload (`StudyMode.tsx` mount) -/

/-- The localStorage slots used by `StudyMode` (`StudyMode.tsx` lines
39–47); `none` models an absent key (`item ? JSON.parse(item) :
initialValue` in `useLocalStorage.ts`). -/
structure StudyStorage where
  studyCurrentIndex : Option Json
  studySelectedTag : Option Json
  studyReviewedCards : Option Json
  studyShowMastered : Option Json
  studySession : Option Json

/-- `JSON.stringify` of the `reviewedCards` value: a `Set` has no
enumerable own properties, so either form stringifies to `"{}"`. -/
def serializeReviewed : ReviewedStore → Json
  | .rset _ => .jobj []
  | .robj => .jobj []

/-- `JSON.stringify` of the `study-session` record. -/
def serializeSession (ss : StudySession) : Json :=
  .jobj [("startTime", .jnum ss.startTime),
         ("cardsReviewed", .jnum ss.cardsReviewed),
         ("sessionProgress", .jobj (ss.sessionProgress.map (fun p =>
           (p.1, Json.jobj [("reviewedAt", .jnum p.2.reviewedAt),
                            ("mastered", .jbool p.2.mastered)]))))]

/-- Write every `StudyMode` slot, as `useLocalStorage`'s setter does on
each state update. -/
def persistStudyState (s : StudyState) : StudyStorage :=
  { studyCurrentIndex := some (.jnum s.currentIndex),
    studySelectedTag := some (.jstr s.selectedTag),
    studyReviewedCards := some (serializeReviewed s.reviewedCards),
    studyShowMastered := some (.jbool s.showMastered),
    studySession := some (serializeSession s.studySession) }

/-- Load the `study-current-index` slot (default 0). -/
def loadIndex (o : Option Json) : Nat :=
  match o with
  | some (.jnum n) => n
  | _ => 0

/-- Load the `study-selected-tag` slot (default `"all"`). -/
def loadTag (o : Option Json) : String :=
  match o with
  | some (.jstr s) => s
  | _ => "all"

/-- Load the `study-reviewed-cards` slot.  An absent key yields the fresh
default `new Set<string>()`; a stored value is always the `"{}"` object
(see `serializeReviewed`) and parses back to a plain object. -/
def loadReviewed (o : Option Json) : ReviewedStore :=
  match o with
  | some (.jobj _) => .robj
  | some _ => .robj
  | none => .rset []

/-- Load the `study-show-mastered` slot (default `false`). -/
def loadShowMastered (o : Option Json) : Bool :=
  match o with
  | some (.jbool b) => b
  | _ => false

/-- Read one entry of the parsed `sessionProgress` object. -/
def parseProgressEntry (j : Json) : Option SessionProgressEntry :=
  match j with
  | .jobj fields =>
    match jLookup fields "reviewedAt", jLookup fields "mastered" with
    | some (.jnum t), some (.jbool m) =>
      some { reviewedAt := t, mastered := m }
    | _, _ => none
  | _ => none

/-- Read the parsed `sessionProgress` object entry-wise. -/
def parseProgressList : List (String × Json) →
    Option (List (String × SessionProgressEntry))
  | [] => some []
  | (k, v) :: rest =>
    match parseProgressEntry v, parseProgressList rest with
    | some e, some tail => some ((k, e) :: tail)
    | _, _ => none

/-- Load the `study-session` slot; the default (absent key) is
`{startTime: Date.now(), cardsReviewed: 0, sessionProgress: {}}`. -/
def loadSession (o : Option Json) (nowMs : Nat) : StudySession :=
  let dflt : StudySession :=
    { startTime := nowMs, cardsReviewed := 0, sessionProgress := [] }
  match o with
  | some (.jobj fields) =>
    match jLookup fields "startTime", jLookup fields "cardsReviewed",
          jLookup fields "sessionProgress" with
    | some (.jnum st), some (.jnum cr), some (.jobj sp) =>
      match parseProgressList sp with
      | some prog =>
        { startTime := st, cardsReviewed := cr, sessionProgress := prog }
      | none => dflt
    | _, _, _ => dflt
  | _ => dflt

/-- Mounting `StudyMode` (a page reload): the `useState`/`useLocalStorage`
initializers read the stored slots, then the effect with dependency list
`[selectedTag, showMastered]` (`StudyMode.tsx` lines 74–77) runs — a React
effect always runs after the first render — and resets
`currentIndex := 0`, `isFlipped := false`. -/
def initStudyMode (stored : StudyStorage) (nowMs : Nat) : StudyState :=
  let s0 : StudyState :=
    { isFlipped := false,
      currentIndex := loadIndex stored.studyCurrentIndex,
      selectedTag := loadTag stored.studySelectedTag,
      reviewedCards := loadReviewed stored.studyReviewedCards,
      showMastered := loadShowMastered stored.studyShowMastered,
      studySession := loadSession stored.studySession nowMs }
  { s0 with currentIndex := 0, isFlipped := false }

/-! ### Derived definitions and sample values used by the theorems -/

/-- The image of a flashcard right after `JSON.parse` of its serialized
form (`lastReviewed` still a string): the intermediate point of the
round-trip. -/
def storedOf (c : Flashcard) : StoredCard :=
  { id := c.id, question := c.question, answer := c.answer,
    tags := c.tags, mastered := c.mastered, reviewCount := c.reviewCount,
    lastReviewed := c.lastReviewed.map dateToJsonString }

/-- Sample card A with tag `x` (spec §8 filtering scenario). -/
def cardA : Flashcard :=
  { id := "A", question := "qA", answer := "aA", tags := ["x"],
    mastered := false, reviewCount := 0, lastReviewed := none }

/-- Sample card B with tag `y`. -/
def cardB : Flashcard :=
  { id := "B", question := "qB", answer := "aB", tags := ["y"],
    mastered := false, reviewCount := 0, lastReviewed := none }

/-- Sample card C with tags `x` and `y`. -/
def cardC : Flashcard :=
  { id := "C", question := "qC", answer := "aC", tags := ["x", "y"],
    mastered := false, reviewCount := 0, lastReviewed := none }

/-- An empty session record. -/
def sessionZero : StudySession :=
  { startTime := 0, cardsReviewed := 0, sessionProgress := [] }

/-- A session sitting flipped at the only card of its view. -/
def stBoundary : StudyState :=
  { isFlipped := true, currentIndex := 0, selectedTag := "all",
    reviewedCards := .rset [], showMastered := true,
    studySession := sessionZero }

/-- A running session at cursor 2 with one reviewed card, about to be
persisted and reloaded. -/
def stPersisted : StudyState :=
  { isFlipped := false, currentIndex := 2, selectedTag := "all",
    reviewedCards := .rset ["a"], showMastered := false,
    studySession := sessionZero }

/-- A session at the first card, flipped, ready to toggle mastery. -/
def stSchedule : StudyState :=
  { isFlipped := true, currentIndex := 0, selectedTag := "all",
    reviewedCards := .rset [], showMastered := true,
    studySession := sessionZero }

/-- The state after the user navigated to the last of three cards while
the auto-advance timer was pending. -/
def liveNavigated : StudyState :=
  { isFlipped := false, currentIndex := 2, selectedTag := "all",
    reviewedCards := .rset [], showMastered := true,
    studySession := sessionZero }

/-- The auto-advance timer captured at cursor 0 over the three sample
cards. -/
def timerAt0 : AutoAdvance :=
  { delayMs := 1000, snapIndex := 0, snapCards := [cardA, cardB, cardC] }

/-- A session at the first card with mastered cards hidden (for the
mastery-toggle witness). -/
def stStudy : StudyState :=
  { isFlipped := true, currentIndex := 0, selectedTag := "all",
    reviewedCards := .rset [], showMastered := false,
    studySession := sessionZero }

instance : IsTotal Flashcard (fun a b => b.reviewCount ≤ a.reviewCount) :=
  ⟨fun a b => Nat.le_total b.reviewCount a.reviewCount⟩

instance : IsTrans Flashcard (fun a b => b.reviewCount ≤ a.reviewCount) :=
  ⟨fun _ _ _ hab hbc => le_trans hbc hab⟩

/-! ## Theorems -/

/-- C7: for every repository, creating a card whose question or answer is
empty after trimming fails validation and leaves the repository
unchanged. -/
theorem create_invalid_is_noop (flashcards : List Flashcard)
    (question answer : String) (tags : List String) (nowMs : Nat)
    (randomPart : String)
    (h : jsTrim question = "" ∨ jsTrim answer = "") :
    createFlow flashcards question answer tags nowMs randomPart =
      flashcards := by
  unfold createFlow handleSubmit
  rcases h with h | h <;> simp [h]

/-- C7 witness: `create("", "x", [])` and `create("x", "", [])` leave a
concrete repository unchanged. -/
theorem create_invalid_is_noop_witness :
    createFlow [cardA] "" "x" [] 0 "r" = [cardA] ∧
    createFlow [cardA] "x" "" [] 0 "r" = [cardA] :=
  ⟨create_invalid_is_noop [cardA] "" "x" [] 0 "r" (Or.inl (by decide)),
   create_invalid_is_noop [cardA] "x" "" [] 0 "r" (Or.inr (by decide))⟩

/-- C8: the filtered view equals the repository filtered by the
conjunction of the tag predicate (`selectedTag` is `"all"` or an exact
member of the card's tags) and the mastery predicate (`showMastered` or
not mastered), in repository order; and on the sample cards
`A{tags:[x]}, B{tags:[y]}, C{tags:[x,y]}`, tag `"x"` yields `[A, C]` and
`"all"` yields `[A, B, C]`. -/
theorem filteredCards_matches_spec :
    (∀ (flashcards : List Flashcard) (selectedTag : String)
        (showMastered : Bool),
      filteredCards flashcards selectedTag showMastered =
        filteredViewSpec flashcards selectedTag showMastered) ∧
    filteredCards [cardA, cardB, cardC] "x" true = [cardA, cardC] ∧
    filteredCards [cardA, cardB, cardC] "all" true = [cardA, cardB, cardC] := by
  refine ⟨fun flashcards selectedTag showMastered => ?_, by decide, by decide⟩
  by_cases ht : selectedTag = "all"
  · cases showMastered <;> simp [filteredCards, filteredViewSpec, ht]
  · have hbeq : (selectedTag == "all") = false := beq_eq_false_iff_ne.mpr ht
    cases showMastered <;>
      simp [filteredCards, filteredViewSpec, ht, hbeq, List.filter_filter,
        Bool.and_comm]

/-- C9 counterexample: with a single-card view, flipped, at the last index
(cursor 0), `next()` leaves `isFlipped` as `true` — it does not reset it
to `false` as the claim states (the reset sits inside the guarded branch
that is skipped at the boundary). -/
theorem next_at_last_keeps_flip :
    stBoundary.currentIndex =
      (filteredCards [cardA] stBoundary.selectedTag
        stBoundary.showMastered).length - 1 ∧
    stBoundary.isFlipped = true ∧
    (handleNext [cardA] stBoundary).isFlipped = true ∧
    ¬ (handleNext [cardA] stBoundary).isFlipped = false := by
  decide

/-- C9 (amended): over a non-empty filtered view, `next()` at
`cursor = len(filteredView) - 1` leaves the whole state unchanged — the
cursor is clamped (not wrapped) and `isFlipped` keeps its value, since
the flip reset happens only when the cursor moves; symmetrically
`previous()` at `cursor = 0` leaves the state unchanged. -/
theorem nav_clamped_at_bounds (flashcards : List Flashcard)
    (s : StudyState) :
    (s.currentIndex =
        (filteredCards flashcards s.selectedTag s.showMastered).length - 1 →
      handleNext flashcards s = s) ∧
    (s.currentIndex = 0 → handlePrevious s = s) := by
  constructor
  · intro h
    simp [handleNext, h]
  · intro h
    simp [handlePrevious, h]

/-- C9 witness: both clamps at a concrete one-card state. -/
theorem nav_clamped_at_bounds_witness :
    handleNext [cardA] stBoundary = stBoundary ∧
    handlePrevious stBoundary = stBoundary :=
  ⟨(nav_clamped_at_bounds [cardA] stBoundary).1 (by decide),
   (nav_clamped_at_bounds [cardA] stBoundary).2 (by decide)⟩

/-- C6: creating a card from a question and answer that are non-empty
after trimming, with an id not already present, appends exactly one card
at the end (all previous cards unchanged, in order) carrying the fresh
id, the trimmed question and answer, the given tags, `mastered = false`,
`reviewCount = 0` and no `lastReviewed`. -/
theorem create_valid_appends (flashcards : List Flashcard)
    (question answer : String) (tags : List String) (nowMs : Nat)
    (randomPart : String)
    (hq : jsTrim question ≠ "") (ha : jsTrim answer ≠ "")
    (hfresh : generateId nowMs randomPart ∉ flashcards.map (·.id)) :
    ∃ card : Flashcard,
      createFlow flashcards question answer tags nowMs randomPart =
        flashcards ++ [card] ∧
      card.id = generateId nowMs randomPart ∧
      card.id ∉ flashcards.map (·.id) ∧
      card.question = jsTrim question ∧
      card.answer = jsTrim answer ∧
      card.tags = tags ∧
      card.mastered = false ∧
      card.reviewCount = 0 ∧
      card.lastReviewed = none := by
  refine ⟨{ id := generateId nowMs randomPart, question := jsTrim question,
            answer := jsTrim answer, tags := tags, mastered := false,
            reviewCount := 0, lastReviewed := none },
          ?_, rfl, hfresh, rfl, rfl, rfl, rfl, rfl, rfl⟩
  unfold createFlow handleSubmit handleFlashcardCreate
  simp [hq, ha]

/-- C6 witness: a concrete valid creation appends the expected card. -/
theorem create_valid_appends_witness :
    ∃ card : Flashcard,
      createFlow [cardA] " q " "a" ["t"] 0 "zz" = [cardA] ++ [card] ∧
      card.id = generateId 0 "zz" ∧
      card.id ∉ [cardA].map (·.id) ∧
      card.question = jsTrim " q " ∧
      card.answer = jsTrim "a" ∧
      card.tags = ["t"] ∧
      card.mastered = false ∧
      card.reviewCount = 0 ∧
      card.lastReviewed = none :=
  create_valid_appends [cardA] " q " "a" ["t"] 0 "zz" (by decide) (by decide)
    (by decide)

/-- C2 counterexample: persist a session whose cursor is 2 and whose
reviewed set holds `"a"`, then re-initialize (page reload): the observed
cursor is 0, not the persisted 2 (the filter-reset effect runs at mount),
and the reviewed set comes back as a plain empty object, not the set. -/
theorem reload_resets_cursor :
    stPersisted.currentIndex = 2 ∧
    (initStudyMode (persistStudyState stPersisted) 9).currentIndex = 0 ∧
    ¬ (initStudyMode (persistStudyState stPersisted) 9).currentIndex = 2 ∧
    stPersisted.reviewedCards = ReviewedStore.rset ["a"] ∧
    ¬ (initStudyMode (persistStudyState stPersisted) 9).reviewedCards =
        ReviewedStore.rset ["a"] := by
  decide

/-- C2 (amended): persisting the session state and re-initializing the
study mode restores `selectedTag` and `showMastered`, but the cursor is
reset to 0 and the flip state to false — the effect that resets them on
filter changes also runs on mount — and the reviewed-cards value comes
back as the empty plain object that JSON round-tripping a `Set`
produces, not as the persisted set. -/
theorem reload_restores_filters_resets_cursor (s : StudyState)
    (nowMs : Nat) :
    (initStudyMode (persistStudyState s) nowMs).selectedTag =
      s.selectedTag ∧
    (initStudyMode (persistStudyState s) nowMs).showMastered =
      s.showMastered ∧
    (initStudyMode (persistStudyState s) nowMs).currentIndex = 0 ∧
    (initStudyMode (persistStudyState s) nowMs).isFlipped = false ∧
    (initStudyMode (persistStudyState s) nowMs).reviewedCards =
      ReviewedStore.robj := by
  cases hr : s.reviewedCards <;>
    simp [initStudyMode, persistStudyState, loadIndex, loadTag,
      loadReviewed, serializeReviewed, loadShowMastered, hr]

/-- C1: the claimed absence of a crash path fails on the state restored
from storage: re-initializing after persisting degrades the reviewed set
to a plain object, and `toggleMastered` on the current card then throws
`TypeError: object is not iterable` at `new Set(reviewedCards)` — an
uncaught exception rather than a no-op or default. -/
theorem toggle_mastered_after_reload_throws :
    (handleMastered [cardA]
        (initStudyMode (persistStudyState stPersisted) 2) 5).2 =
      Except.error JsError.typeErrorNotIterable := rfl

/-- C4 counterexample: toggling mastery at cursor 0 over the three sample
cards schedules the timer with the snapshot (index 0, three-card view);
with the user meanwhile at cursor 2 (the last index), firing the timer
sets the cursor to 1 — computed from the snapshot — whereas the claimed
live computation would leave the cursor at 2 (already last). -/
theorem auto_advance_uses_snapshot :
    ((handleMastered [cardA, cardB, cardC] stSchedule 7).2.toOption.map
        (fun p => p.2)) = some (some timerAt0) ∧
    (fireAutoAdvance timerAt0 liveNavigated).currentIndex = 1 ∧
    (fireAutoAdvanceSpecLive [cardA, cardB, cardC]
        liveNavigated).currentIndex = 2 ∧
    ¬ fireAutoAdvance timerAt0 liveNavigated =
        fireAutoAdvanceSpecLive [cardA, cardB, cardC] liveNavigated := by
  decide

/-- C4 (amended): when `toggleMastered` transitions the current card from
unmastered to mastered, an automatic advance is scheduled after a fixed
1000 ms delay (and none is scheduled on the reverse transition); but the
decision whether to advance and the target index are computed against the
cursor and filtered view captured when the callback was scheduled, not
live values: firing sets the live cursor to snapshot-index + 1 exactly
when the snapshot index was below the snapshot view's last index,
irrespective of interim navigation. -/
theorem auto_advance_snapshot_semantics (flashcards : List Flashcard)
    (s : StudyState) (now : Nat) (card : Flashcard) (ids : List String)
    (hcur : (filteredCards flashcards s.selectedTag
        s.showMastered)[s.currentIndex]? = some card)
    (hids : s.reviewedCards = .rset ids) :
    (card.mastered = false →
      (handleMastered flashcards s now).2.toOption.map (fun p => p.2) =
        some (some
          { delayMs := 1000, snapIndex := s.currentIndex,
            snapCards :=
              filteredCards flashcards s.selectedTag s.showMastered })) ∧
    (card.mastered = true →
      (handleMastered flashcards s now).2.toOption.map (fun p => p.2) =
        some none) ∧
    (∀ (t : AutoAdvance) (live : StudyState),
      fireAutoAdvance t live =
        if t.snapIndex < t.snapCards.length - 1 then
          { live with currentIndex := t.snapIndex + 1, isFlipped := false }
        else live) := by
  refine ⟨?_, ?_, ?_⟩
  · intro hm
    simp [handleMastered, hcur, hids, newSetFrom, hm, Except.toOption]
  · intro hm
    simp [handleMastered, hcur, hids, newSetFrom, hm, Except.toOption]
  · intro t live
    by_cases h : t.snapIndex < t.snapCards.length - 1 <;>
      simp [fireAutoAdvance, h]

/-- C4 witness: the amended behavior at the concrete scheduling state. -/
theorem auto_advance_snapshot_semantics_witness :
    (handleMastered [cardA, cardB, cardC] stSchedule 7).2.toOption.map
        (fun p => p.2) =
      some (some
        { delayMs := 1000, snapIndex := stSchedule.currentIndex,
          snapCards := filteredCards [cardA, cardB, cardC]
            stSchedule.selectedTag stSchedule.showMastered }) :=
  (auto_advance_snapshot_semantics [cardA, cardB, cardC] stSchedule 7
    cardA [] (by decide) (by decide)).1 (by decide)

/-- A card delivered by the filtered view is a card of the repository. -/
theorem mem_of_mem_filteredCards {c : Flashcard}
    {flashcards : List Flashcard} {tag : String} {sm : Bool}
    (h : c ∈ filteredCards flashcards tag sm) : c ∈ flashcards := by
  unfold filteredCards at h
  split_ifs at h <;>
    first
      | exact h
      | exact List.mem_of_mem_filter h
      | exact List.mem_of_mem_filter (List.mem_of_mem_filter h)

/-- An element is a member of the set it was added to. -/
theorem mem_setAdd_self (ids : List String) (id : String) :
    id ∈ setAdd ids id := by
  by_cases h : ids.contains id <;> simp_all [setAdd]

/-- C5: toggling mastery on an unmastered current card with
`reviewCount = n` updates the repository through the update operation
with that card now `mastered = true`, `reviewCount = n + 1` and
`lastReviewed` set to a time at least the time of the call, and records
the card's id in the reviewed set. -/
theorem toggleMastered_masters (flashcards : List Flashcard)
    (s : StudyState) (now : Nat) (card : Flashcard) (ids : List String)
    (hcur : (filteredCards flashcards s.selectedTag
        s.showMastered)[s.currentIndex]? = some card)
    (hm : card.mastered = false)
    (hids : s.reviewedCards = .rset ids) :
    ∃ (updated : Flashcard) (s1 : StudyState)
      (timer : Option AutoAdvance),
      handleMastered flashcards s now =
        (handleFlashcardUpdate flashcards updated, .ok (s1, timer)) ∧
      updated.id = card.id ∧
      updated.mastered = true ∧
      updated.reviewCount = card.reviewCount + 1 ∧
      (∃ t, updated.lastReviewed = some t ∧ now ≤ t) ∧
      updated ∈ handleFlashcardUpdate flashcards updated ∧
      s1.reviewedCards = .rset (setAdd ids card.id) ∧
      card.id ∈ setAdd ids card.id := by
  have hmemfc : card ∈ filteredCards flashcards s.selectedTag s.showMastered := by
    obtain ⟨h, hg⟩ := List.getElem?_eq_some.mp hcur
    exact hg ▸ List.getElem_mem h
  have hmem : card ∈ flashcards := mem_of_mem_filteredCards hmemfc
  refine ⟨{ card with
            mastered := true,
            reviewCount := card.reviewCount + 1,
            lastReviewed := some now },
          { s with
            reviewedCards := .rset (setAdd ids card.id),
            studySession := { s.studySession with
              cardsReviewed := s.studySession.cardsReviewed + 1,
              sessionProgress := upsertProgress
                s.studySession.sessionProgress card.id
                { reviewedAt := now, mastered := true } } },
          some
            { delayMs := 1000, snapIndex := s.currentIndex,
              snapCards :=
                filteredCards flashcards s.selectedTag s.showMastered },
          ?_, rfl, rfl, rfl, ⟨now, rfl, le_refl now⟩, ?_, rfl,
          mem_setAdd_self ids card.id⟩
  · simp [handleMastered, hcur, hids, newSetFrom, hm]
  · exact List.mem_map.mpr ⟨card, hmem, by simp⟩

/-- C5 witness: the mastery toggle at a concrete one-card session. -/
theorem toggleMastered_masters_witness :
    ∃ (updated : Flashcard) (s1 : StudyState)
      (timer : Option AutoAdvance),
      handleMastered [cardA] stStudy 42 =
        (handleFlashcardUpdate [cardA] updated, .ok (s1, timer)) ∧
      updated.id = cardA.id ∧
      updated.mastered = true ∧
      updated.reviewCount = cardA.reviewCount + 1 ∧
      (∃ t, updated.lastReviewed = some t ∧ 42 ≤ t) ∧
      updated ∈ handleFlashcardUpdate [cardA] updated ∧
      s1.reviewedCards = .rset (setAdd [] cardA.id) ∧
      cardA.id ∈ setAdd [] cardA.id :=
  toggleMastered_masters [cardA] stStudy 42 cardA [] (by decide) (by decide)
    (by decide)

/-- Digit characters decode to their digit. -/
theorem charDigit_digitChar {d : Nat} (h : d < 10) :
    charDigit (digitChar d) = d := by
  interval_cases d <;> decide

/-- The serialized date string decodes to the exact epoch value. -/
theorem parseDate_dateToJsonString (t : Nat) :
    parseDateString (dateToJsonString t) = t := by
  by_cases h0 : t = 0
  · subst h0; decide
  · unfold dateToJsonString parseDateString
    rw [if_neg h0]
    show Nat.ofDigits 10
        (((((Nat.digits 10 t).map digitChar).reverse).map
          charDigit).reverse) = t
    rw [List.map_reverse, List.reverse_reverse, List.map_map]
    have hmap : (Nat.digits 10 t).map (charDigit ∘ digitChar) =
        Nat.digits 10 t :=
      (List.map_congr_left (fun d hd =>
        charDigit_digitChar (Nat.digits_lt_base (by norm_num) hd))).trans
        (List.map_id _)
    rw [hmap, Nat.ofDigits_digits]

/-- A serialized date string is never empty. -/
theorem dateToJsonString_ne_empty (t : Nat) : dateToJsonString t ≠ "" := by
  unfold dateToJsonString
  split_ifs with h
  · decide
  · intro hcontra
    have hdata : ((Nat.digits 10 t).map digitChar).reverse = [] :=
      congrArg String.data hcontra
    have hnil : Nat.digits 10 t = [] := by simpa using hdata
    exact h (Nat.digits_eq_nil_iff_eq_zero.mp hnil)

/-- A serialized tag list parses back to itself. -/
theorem parseStringList_map (ts : List String) :
    parseStringList (ts.map Json.jstr) = some ts := by
  induction ts with
  | nil => rfl
  | cons hst tl ih => simp [parseStringList, ih]

/-- A serialized card parses back to its stored (string-dated) image. -/
theorem parseCard_serializeCard (c : Flashcard) :
    parseCard (serializeCard c) = some (storedOf c) := by
  obtain ⟨i, q, a, ts, m, r, lr⟩ := c
  cases lr <;>
    simp [serializeCard, parseCard, jLookup, storedOf, parseStringList_map]

/-- Rehydrating the stored image recovers the original card. -/
theorem rehydrateCard_storedOf (c : Flashcard) :
    rehydrateCard (storedOf c) = c := by
  obtain ⟨i, q, a, ts, m, r, lr⟩ := c
  cases lr with
  | none => rfl
  | some t =>
    simp [rehydrateCard, storedOf, dateToJsonString_ne_empty t,
      parseDate_dateToJsonString]

/-- A serialized card array parses element-wise. -/
theorem parseCardList_map (cards : List Flashcard) :
    parseCardList (cards.map serializeCard) =
      some (cards.map storedOf) := by
  induction cards with
  | nil => rfl
  | cons c cs ih => simp [parseCardList, parseCard_serializeCard, ih]

/-- C3: serializing the repository and deserializing it (including the
date-rehydration pass that runs on load) yields an equal ordered sequence
of cards, field for field, also for cards whose `lastReviewed` timestamp
is set, given a storage medium that does not fail. -/
theorem cards_serialization_roundtrip (cards : List Flashcard) :
    (parseCards (serializeCards cards)).map
        (fun stored => stored.map rehydrateCard) = some cards := by
  simp [parseCards, serializeCards, parseCardList_map, List.map_map]
  exact (List.map_congr_left fun c _ => rehydrateCard_storedOf c).trans
    (List.map_id _)

/-- Stability of the ordered insertion, expressed through key-filtering:
inserting a card disturbs no relative order among cards of any fixed
review count, and the inserted card lands before every equal-count
card. -/
theorem filter_orderedInsert (k : Nat) (a : Flashcard) :
    ∀ l : List Flashcard,
      (List.orderedInsert (fun x y => y.reviewCount ≤ x.reviewCount) a
          l).filter (fun c => c.reviewCount == k) =
        if a.reviewCount = k then
          a :: l.filter (fun c => c.reviewCount == k)
        else l.filter (fun c => c.reviewCount == k)
  | [] => by
    by_cases hak : a.reviewCount = k <;>
      simp [List.orderedInsert, List.filter_cons, hak, beq_iff_eq]
  | b :: t => by
    have ih := filter_orderedInsert k a t
    by_cases hba : b.reviewCount ≤ a.reviewCount
    · simp only [List.orderedInsert]
      rw [if_pos hba]
      by_cases hak : a.reviewCount = k <;>
        by_cases hbk : b.reviewCount = k <;>
          simp [List.filter_cons, hak, hbk, beq_iff_eq]
    · simp only [List.orderedInsert]
      rw [if_neg hba]
      by_cases hak : a.reviewCount = k
      · have hbk : ¬ b.reviewCount = k := fun hb =>
          hba (le_of_eq (hb.trans hak.symm))
        simp [List.filter_cons, hak, hbk, ih, beq_iff_eq]
      · by_cases hbk : b.reviewCount = k <;>
          simp [List.filter_cons, hak, hbk, ih, beq_iff_eq]

/-- The stable sort preserves, for every review count, the repository
subsequence of cards having that count. -/
theorem filter_sortByReviewsDesc (k : Nat) :
    ∀ flashcards : List Flashcard,
      (sortByReviewsDesc flashcards).filter
          (fun c => c.reviewCount == k) =
        flashcards.filter (fun c => c.reviewCount == k)
  | [] => rfl
  | c :: cs => by
    have ih := filter_sortByReviewsDesc k cs
    unfold sortByReviewsDesc at ih ⊢
    simp only [List.insertionSort]
    rw [filter_orderedInsert k c, ih]
    by_cases hck : c.reviewCount = k <;>
      simp [List.filter_cons, hck, beq_iff_eq]

/-- C10: `mostStudied` is the first five entries of a permutation of the
repository that is sorted by `reviewCount` descending and stable on ties
(for every review count, the relative repository order of equal-count
cards is preserved), and every card left out has a review count no
larger than any card shown. -/
theorem mostStudied_top5_stable (flashcards : List Flashcard) :
    mostStudied flashcards = (sortByReviewsDesc flashcards).take 5 ∧
    (sortByReviewsDesc flashcards).Perm flashcards ∧
    (sortByReviewsDesc flashcards).Sorted
      (fun a b => b.reviewCount ≤ a.reviewCount) ∧
    (∀ k : Nat,
      (sortByReviewsDesc flashcards).filter
          (fun c => c.reviewCount == k) =
        flashcards.filter (fun c => c.reviewCount == k)) ∧
    (∀ a ∈ mostStudied flashcards,
      ∀ b ∈ (sortByReviewsDesc flashcards).drop 5,
        b.reviewCount ≤ a.reviewCount) := by
  refine ⟨rfl, List.perm_insertionSort _ _, List.sorted_insertionSort _ _,
    fun k => filter_sortByReviewsDesc k flashcards, ?_⟩
  have hs := List.sorted_insertionSort
    (fun a b : Flashcard => b.reviewCount ≤ a.reviewCount) flashcards
  intro a ha b hb
  have hpw : List.Pairwise
      (fun a b : Flashcard => b.reviewCount ≤ a.reviewCount)
      ((sortByReviewsDesc flashcards).take 5 ++
        (sortByReviewsDesc flashcards).drop 5) := by
    rw [List.take_append_drop]
    exact hs
  exact (List.pairwise_append.mp hpw).2.2 a ha b hb

end FlashMaster
